import Mathlib

/-!
Verification of the Kubernetes deterministic-networking flow manager.

This file gives a shallow embedding, in Lean 4, of the control core of the
repository: the configuration model and validator (`config_loader.py`), the
rolling-window IQR jitter statistic and control decision of the bandwidth
controller (`controller/flow_manager.py`: `MetricsClient`,
`BandwidthController`), the Asymmetric-AIMD bandwidth update, the
egress-bandwidth annotation parser, and the UDP reflector
(`probes/udp_server.py`).

Modelling conventions:
* Python unbounded `int` is modelled as `ℤ` (sizes and indices as `ℕ`).
* Python `float` is modelled as `ℚ`.  All latency / jitter values handled by
  the controller are small decimal numbers on which binary floating point and
  exact rational arithmetic agree for the comparisons performed here; the
  float-specific rounding of `round(x, 3)` is modelled by exact decimal
  rounding on `ℚ`.
* `int(x)` applied to a Python float is truncation toward zero, modelled by
  `pyTrunc : ℚ → ℤ`.
* Dictionaries iterated in insertion order are modelled as lists.
-/

/-- Truncation toward zero on `ℚ`, the semantics of Python `int(float)`. -/
def pyTrunc (q : ℚ) : ℤ :=
  if 0 ≤ q then ⌊q⌋ else -⌊-q⌋

/-! ## Configuration data model (`config_loader.py`) -/

/-- `CriticalAppConfig` dataclass of `config_loader.py`.
`protocol` is kept as a raw string: validation (and only validation)
restricts it to `"TCP"` / `"UDP"`. -/
structure CriticalAppConfig where
  name : String
  service : String
  port : ℤ
  protocol : String
  max_jitter_ms : ℚ
  max_latency_ms : Option ℚ
  priority : ℤ
deriving DecidableEq

/-- `BestEffortTarget` dataclass of `config_loader.py`. -/
structure BestEffortTarget where
  deployment : String
  namespaceName : String
  initial_bandwidth : ℤ
deriving DecidableEq

/-- `ControlConfig` dataclass of `config_loader.py`.  `window_size` is used
only as a `deque` capacity, hence `ℕ`. -/
structure ControlConfig where
  probe_interval : ℚ
  control_interval : ℚ
  window_size : ℕ
  step_down : ℤ
  step_up : ℤ
  min_bandwidth : ℤ
  max_bandwidth : ℤ
deriving DecidableEq

/-- `SystemConfig` dataclass of `config_loader.py`. -/
structure SystemConfig where
  control : ControlConfig
  critical_apps : List CriticalAppConfig
  best_effort_targets : List BestEffortTarget
  aggregation_method : String
  severity_multiplier_enabled : Bool
  severity_max_multiplier : ℚ
deriving DecidableEq

/-- `ConfigLoader.validate` (`config_loader.py`, lines 132-159): four
sequential checks, returning `False` on the first failure.  Note the source
validates neither `window_size` nor the two intervals. -/
def validate (cfg : SystemConfig) : Bool :=
  if cfg.critical_apps.isEmpty then false
  else if cfg.best_effort_targets.isEmpty then false
  else if cfg.control.min_bandwidth ≥ cfg.control.max_bandwidth then false
  else if cfg.critical_apps.any
      (fun a => !(a.protocol == "TCP" || a.protocol == "UDP")) then false
  else true

/-! ## Jitter statistic (`flow_manager.py`, `MetricsClient`) -/

/-- Python `round(x, 3)`: rounding to three fractional digits, modelled by
round-to-nearest on `ℚ` (`round` on `ℚ` is `⌊x + 1/2⌋`; Python's float
`round` is round-half-even, which differs only at exact `0.0005` ties). -/
def round3 (x : ℚ) : ℚ :=
  (round (x * 1000) : ℚ) / 1000

/-- `MetricsClient._calculate_jitter_iqr` (`flow_manager.py`, lines 111-126):
sort the window ascending, take `Q1 = sorted[n // 4]`, `Q3 = sorted[3 * n // 4]`
and return `round(Q3 - Q1, 3)`; windows shorter than 5 give `0.0`.
Python's `sorted` is modelled by `List.insertionSort`. -/
def calculateJitterIqr (window : List ℚ) : ℚ :=
  if window.length < 5 then 0
  else
    let sortedSamples := window.insertionSort (· ≤ ·)
    let n := sortedSamples.length
    let q1 := sortedSamples.getD (n / 4) 0
    let q3 := sortedSamples.getD (3 * n / 4) 0
    round3 (q3 - q1)

/-- Appending one sample to a `deque(maxlen := windowSize)`: the new sample
goes to the right, the oldest samples fall off the left on overflow. -/
def appendSample (windowSize : ℕ) (w : List ℚ) (x : ℚ) : List ℚ :=
  let w2 := w ++ [x]
  w2.drop (w2.length - windowSize)

/-- Success path of `MetricsClient.fetch_and_calculate_jitter`
(`flow_manager.py`, lines 89-102): append the fetched latency to the app's
rolling window, then return `(latency, jitter)` where the jitter is the IQR
statistic when the window has at least 5 samples and `0.0` otherwise.
Fetch failures return `None` in the source and produce no app state at all;
they are modelled by the app simply being absent from the tick's state list. -/
def fetchAndCalculateJitter (windowSize : ℕ) (w : List ℚ) (latency : ℚ) :
    ℚ × ℚ :=
  let w2 := appendSample windowSize w latency
  if 5 ≤ w2.length then (latency, calculateJitterIqr w2)
  else (latency, 0)

/-! ## Control decision (`flow_manager.py`, `BandwidthController`) -/

/-- Python `protocol.upper() == 'UDP'`: uppercasing maps each character
(modelled at the character level). -/
def isUdpProtocol (p : String) : Bool :=
  p.data.map Char.toUpper == "UDP".data

/-- One entry of the `app_states` dict built by `control_loop`
(`flow_manager.py`, lines 189-203).  The dict also stores `violation` and
`severity`, but both are pure functions of `jitter` and the app's
`max_jitter_ms` computed at lines 194-195; they are recomputed where read. -/
structure AppState where
  app : CriticalAppConfig
  latency : ℚ
  jitter : ℚ
deriving DecidableEq

/-- The stored `violation` flag (`flow_manager.py`, line 194):
`jitter > app.max_jitter_ms`. -/
def violationFlag (s : AppState) : Bool :=
  s.app.max_jitter_ms < s.jitter

/-- Guard of the worst-violation loop (`flow_manager.py`, line 251):
`state['violation'] and state['app'].protocol.upper() == 'UDP'`. -/
def isUdpViolator (s : AppState) : Bool :=
  violationFlag s && isUdpProtocol s.app.protocol

/-- One step of the worst-violation accumulation
(`flow_manager.py`, lines 250-253). -/
def worstStep (w : Option AppState) (s : AppState) : Option AppState :=
  if isUdpViolator s then
    match w with
    | none => some s
    | some v => if v.app.priority < s.app.priority then some s else some v
  else w

/-- The `worst_violation` loop of `_make_control_decision`
(`flow_manager.py`, lines 249-253): highest-priority UDP violator, earlier
entries winning ties (`state.priority > worst.priority` is strict). -/
def worstViolation (states : List AppState) : Option AppState :=
  states.foldl worstStep none

/-- The three control actions. -/
inductive ControlAction where
  | throttle
  | release
  | maintain
deriving DecidableEq

/-- The decision dict returned by `_make_control_decision`
(`flow_manager.py`, lines 258-286).  The source's `reason` is a formatted
string; for a throttle it interpolates the winning violator's name, protocol,
jitter and threshold, so we keep that winning state itself (`none` for the
fixed release / maintain reason strings). -/
structure Decision where
  action : ControlAction
  reasonApp : Option AppState
  reduction_percent : ℚ
deriving DecidableEq

/-- `BandwidthController._make_control_decision`
(`flow_manager.py`, lines 234-286). -/
def makeControlDecision (states : List AppState) : Decision :=
  match worstViolation states with
  | some w => ⟨ControlAction.throttle, some w, 20 / 100⟩
  | none =>
    let udpStates := states.filter (fun s => isUdpProtocol s.app.protocol)
    let allStable :=
      !udpStates.isEmpty &&
        udpStates.all (fun s => s.jitter < s.app.max_jitter_ms * (1 / 2))
    if allStable then ⟨ControlAction.release, none, 0⟩
    else ⟨ControlAction.maintain, none, 0⟩

/-- The state entry built by `control_loop` (lines 189-203) for one app whose
metric fetch succeeded this tick, as a function of the app's pre-tick rolling
window and the latency sample parsed from the probe scrape. -/
def measuredState (windowSize : ℕ) (app : CriticalAppConfig) (w : List ℚ)
    (latency : ℚ) : AppState :=
  ⟨app, (fetchAndCalculateJitter windowSize w latency).1,
    (fetchAndCalculateJitter windowSize w latency).2⟩

/-! ## Asymmetric AIMD enforcement (`flow_manager.py`, lines 288-347) -/

/-- Per-target bandwidth update of `_apply_bandwidth_changes`
(`flow_manager.py`, lines 302-324), assuming the patch succeeds (on patch
failure the in-memory value is left unchanged):
* throttle: `reduction = int(current_bw * reduction_percent)`;
  `new_bw = max(min_bandwidth, current_bw - reduction)`;
* release: `new_bw = min(max_bandwidth, current_bw + 10)` — the step is the
  literal `10` of line 322, not the configured `step_up`;
* maintain: early return, bandwidth unchanged. -/
def applyBandwidthChange (c : ControlConfig) (d : Decision) (B : ℤ) : ℤ :=
  match d.action with
  | ControlAction.throttle =>
      max c.min_bandwidth (B - pyTrunc ((B : ℚ) * d.reduction_percent))
  | ControlAction.release => min c.max_bandwidth (B + 10)
  | ControlAction.maintain => B

/-- Modelled from the spec (§4.3.5 and claim C2 wording): the AIMD update
with `B' = max(B_min, B - ⌊B * d⌋)` for THROTTLE and
`B' = min(B_max, B + step_up)` for RELEASE, `step_up` being the configured
increase step of the control section.  Stated for comparison with
`applyBandwidthChange`, which is translated from the source. -/
def applyBandwidthSpec (c : ControlConfig) (a : ControlAction) (B : ℤ) : ℤ :=
  match a with
  | ControlAction.throttle => max c.min_bandwidth (B - ⌊(B : ℚ) * (20 / 100)⌋)
  | ControlAction.release => min c.max_bandwidth (B + c.step_up)
  | ControlAction.maintain => B

/-! ## Startup bandwidth state (`flow_manager.py`, lines 152-170) -/

/-- Single-character `str.replace` on a character list (all the replacements
performed by `_get_current_bandwidth` have single-character patterns). -/
def replaceChar (pat : Char) (rep : List Char) : List Char → List Char
  | [] => []
  | c :: cs => (if c = pat then rep else [c]) ++ replaceChar pat rep cs

/-- Value of a digit string, as accumulated by Python `int`. -/
def digitsVal (l : List Char) : ℕ :=
  l.foldl (fun a c => 10 * a + (c.toNat - 48)) 0

/-- Python `int(s)` on a string: an optional sign followed by a non-empty
run of digits; anything else raises `ValueError`, modelled as `none`.
(Surrounding whitespace and digit-group underscores, which Python also
accepts, do not occur in the strings handled here and are elided.) -/
def pyIntOfChars (l : List Char) : Option ℤ :=
  match l with
  | [] => none
  | c :: rest =>
    if c = '-' then
      if !rest.isEmpty && rest.all Char.isDigit then
        some (-(digitsVal rest : ℤ))
      else none
    else if c = '+' then
      if !rest.isEmpty && rest.all Char.isDigit then
        some ((digitsVal rest : ℤ))
      else none
    else
      if l.all Char.isDigit then some ((digitsVal l : ℤ)) else none

/-- The annotation-parsing expression of `_get_current_bandwidth`
(`flow_manager.py`, line 167):
`int(bw_str.replace('M','').replace('m','').replace('G','000').replace('g','000'))`,
`none` modelling the `ValueError` path (caught at line 168, returning `None`).
Note `'K'`/`'k'` are not replaced, so such suffixes reach `int()` and fail. -/
def parseBandwidth (s : String) : Option ℤ :=
  pyIntOfChars
    (replaceChar 'g' ['0', '0', '0']
      (replaceChar 'G' ['0', '0', '0']
        (replaceChar 'm' [] (replaceChar 'M' [] s.data))))

/-- `BandwidthController._get_current_bandwidth`
(`flow_manager.py`, lines 161-170) on a readable deployment, as a function of
the deployment's current annotation value (absent annotations default to
`"0M"`, line 166).  The unreadable-deployment path returns `None` in the
source and is modelled by calling `initialBandwidthFor` with `none`. -/
def getCurrentBandwidth (annot : Option String) : Option ℤ :=
  parseBandwidth (annot.getD "0M")

/-- Startup initialization of one target's in-memory bandwidth
(`flow_manager.py`, line 156): `bw if bw else target.initial_bandwidth`,
where both `None` and `0` are falsy. -/
def initialBandwidthFor (readBw : Option ℤ) (initial : ℤ) : ℤ :=
  match readBw with
  | none => initial
  | some b => if b = 0 then initial else b

/-! ## UDP reflector (`probes/udp_server.py`) -/

/-- One round of the reflector loop (`udp_server.py`, lines 20-22): the
payload sent back for a received datagram.  `recvfrom(1024)` delivers at most
the first 1024 bytes of the datagram; the reply is exactly those bytes. -/
def reflectorReply (datagram : List ℕ) : List ℕ :=
  datagram.take 1024

/-! ## Concrete fixtures used by witnesses and counterexamples -/

/-- A UDP critical app (the spec's `robot-control` example). -/
def robotApp : CriticalAppConfig :=
  ⟨"robot-control", "robot-svc", 5001, "UDP", 5, none, 10⟩

/-- A TCP critical app (the spec's `safety-scanner` example). -/
def scannerApp : CriticalAppConfig :=
  ⟨"safety-scanner", "scanner-svc", 5002, "TCP", 2, none, 5⟩

/-- Measurement state with a violating jitter (6 ms against a 5 ms SLA). -/
def violRobotState : AppState := ⟨robotApp, 7, 6⟩

/-- Measurement state with a stable jitter (1 ms against a 5 ms SLA). -/
def stableRobotState : AppState := ⟨robotApp, 1, 1⟩

/-- TCP measurement state violating its own SLA (3 ms against 2 ms). -/
def violScannerState : AppState := ⟨scannerApp, 4, 3⟩

/-- Control section with bounds `[10, 1000]` and `step_up = 10`. -/
def c7Control : ControlConfig := ⟨1, 5, 30, 50, 10, 10, 1000⟩

/-- Control section with bounds `[10, 1000]` and `step_up = 20`. -/
def stepUpControl : ControlConfig := ⟨1, 5, 30, 50, 20, 10, 1000⟩

/-- A system configuration whose `window_size` is 3 but which satisfies all
four checks actually performed by `ConfigLoader.validate`. -/
def badWindowConfig : SystemConfig :=
  ⟨⟨1, 5, 3, 50, 10, 10, 1000⟩, [robotApp], [⟨"be-workload", "default", 500⟩],
    "priority", true, 5⟩

/-! ## Helper lemmas -/

theorem pyTrunc_eq_floor (q : ℚ) (h : 0 ≤ q) : pyTrunc q = ⌊q⌋ := by
  simp [pyTrunc, h]

theorem pyTrunc_nonneg (q : ℚ) (h : 0 ≤ q) : 0 ≤ pyTrunc q := by
  rw [pyTrunc_eq_floor q h]
  exact Int.floor_nonneg.mpr h

/-! ## C9 — reflector round-trip -/

/-- Claim C9 as stated is false: `recvfrom(1024)` truncates any datagram
longer than 1024 bytes, so a 1025-byte datagram is not echoed verbatim. -/
theorem c9_reflector_counterexample :
    reflectorReply (List.replicate 1025 0) ≠ List.replicate 1025 0 := by
  intro h
  have hlen := congrArg List.length h
  rw [reflectorReply, List.length_take, List.length_replicate] at hlen
  omega

/-- Claim C9, amended: every datagram of at most 1024 bytes (the `recvfrom`
buffer size) is echoed back to the sender unchanged. -/
theorem c9_reflector_echo (b : List ℕ) (h : b.length ≤ 1024) :
    reflectorReply b = b := by
  simp [reflectorReply, List.take_of_length_le h]

/-- Witness for `c9_reflector_echo` at a concrete 3-byte datagram. -/
theorem c9_reflector_echo_witness : reflectorReply [7, 8, 9] = [7, 8, 9] :=
  c9_reflector_echo [7, 8, 9] (by decide)

/-! ## C10 — startup fallback to `initial_bandwidth` -/

/-- Claim C10: at startup, a readable deployment whose egress-bandwidth
annotation is absent (defaulted to `"0M"`) or parses to `0` (both falsy)
leaves the target's in-memory bandwidth at its configured
`initial_bandwidth`, not at `0`. -/
theorem c10_init_falls_back (initial : ℤ) (s : String) :
    initialBandwidthFor (getCurrentBandwidth none) initial = initial ∧
    (parseBandwidth s = some 0 →
      initialBandwidthFor (getCurrentBandwidth (some s)) initial = initial) := by
  constructor
  · have h : getCurrentBandwidth none = some 0 := by decide
    rw [h]
    simp [initialBandwidthFor]
  · intro h
    have h2 : getCurrentBandwidth (some s) = some 0 := h
    rw [h2]
    simp [initialBandwidthFor]

/-- Witness for `c10_init_falls_back` at `initial = 250` and the literal
annotation `"0M"`. -/
theorem c10_init_falls_back_witness :
    initialBandwidthFor (getCurrentBandwidth (some "0M")) 250 = 250 :=
  (c10_init_falls_back 250 "0M").2 (by decide)

/-! ## C1, C2, C7 — AIMD enforcement -/

theorem makeControlDecision_of_violator (states : List AppState) (w : AppState)
    (hw : worstViolation states = some w) :
    makeControlDecision states = ⟨ControlAction.throttle, some w, 20 / 100⟩ := by
  unfold makeControlDecision
  rw [hw]

theorem makeControlDecision_of_no_violator (states : List AppState)
    (hw : worstViolation states = none) :
    makeControlDecision states =
      if (!(states.filter (fun s => isUdpProtocol s.app.protocol)).isEmpty &&
          (states.filter (fun s => isUdpProtocol s.app.protocol)).all
            (fun s => s.jitter < s.app.max_jitter_ms * (1 / 2)))
      then ⟨ControlAction.release, none, 0⟩
      else ⟨ControlAction.maintain, none, 0⟩ := by
  unfold makeControlDecision
  rw [hw]

theorem makeControlDecision_shape (states : List AppState) :
    (∃ w, makeControlDecision states = ⟨ControlAction.throttle, some w, 20 / 100⟩) ∨
    makeControlDecision states = ⟨ControlAction.release, none, 0⟩ ∨
    makeControlDecision states = ⟨ControlAction.maintain, none, 0⟩ := by
  cases hw : worstViolation states with
  | some w => exact Or.inl ⟨w, makeControlDecision_of_violator states w hw⟩
  | none =>
    rw [makeControlDecision_of_no_violator states hw]
    by_cases h :
        (!(states.filter (fun s => isUdpProtocol s.app.protocol)).isEmpty &&
          (states.filter (fun s => isUdpProtocol s.app.protocol)).all
            (fun s => s.jitter < s.app.max_jitter_ms * (1 / 2))) = true
    · exact Or.inr (Or.inl (by rw [if_pos h]))
    · exact Or.inr (Or.inr (by rw [if_neg h]))

theorem makeControlDecision_rp_nonneg (states : List AppState) :
    0 ≤ (makeControlDecision states).reduction_percent := by
  rcases makeControlDecision_shape states with ⟨w, h⟩ | h | h
  · rw [h]
    norm_num
  · rw [h]
  · rw [h]

theorem applyBandwidthChange_bounds (c : ControlConfig) (d : Decision) (B : ℤ)
    (hrp : 0 ≤ d.reduction_percent) (hmin0 : 0 ≤ c.min_bandwidth)
    (hminmax : c.min_bandwidth ≤ c.max_bandwidth)
    (hlo : c.min_bandwidth ≤ B) (hhi : B ≤ c.max_bandwidth) :
    c.min_bandwidth ≤ applyBandwidthChange c d B ∧
    applyBandwidthChange c d B ≤ c.max_bandwidth := by
  unfold applyBandwidthChange
  cases hact : d.action with
  | throttle =>
    constructor
    · exact le_max_left _ _
    · have hB0 : (0 : ℚ) ≤ (B : ℚ) * d.reduction_percent :=
        mul_nonneg (by exact_mod_cast le_trans hmin0 hlo) hrp
      have hred : 0 ≤ pyTrunc ((B : ℚ) * d.reduction_percent) :=
        pyTrunc_nonneg _ hB0
      exact max_le hminmax (by omega)
  | release => exact ⟨le_min hminmax (by omega), min_le_left _ _⟩
  | maintain => exact ⟨hlo, hhi⟩

/-- Claim C1 as stated is false: the startup bandwidth is taken from the
orchestrator (or `initial_bandwidth`) without clamping, and no tick action
re-establishes the upper bound.  Reading a `2000M` annotation with bounds
`[10, 1000]` and then executing a MAINTAIN tick leaves the in-memory
bandwidth at `2000 > max_bandwidth`. -/
theorem c1_bounds_counterexample :
    ¬ applyBandwidthChange c7Control (makeControlDecision [])
        (initialBandwidthFor (some 2000) 500) ≤ c7Control.max_bandwidth := by
  decide

/-- Claim C1, amended: the bounds invariant is preserved (though not
established) by every tick — if a target's in-memory bandwidth lies within
`[min_bandwidth, max_bandwidth]` before a control tick (with
`0 ≤ min_bandwidth ≤ max_bandwidth`), it still does after the tick's
bandwidth update, whatever the tick's measurement states were. -/
theorem c1_bounds_preserved (c : ControlConfig) (states : List AppState) (B : ℤ)
    (hmin0 : 0 ≤ c.min_bandwidth) (hminmax : c.min_bandwidth ≤ c.max_bandwidth)
    (hlo : c.min_bandwidth ≤ B) (hhi : B ≤ c.max_bandwidth) :
    c.min_bandwidth ≤ applyBandwidthChange c (makeControlDecision states) B ∧
    applyBandwidthChange c (makeControlDecision states) B ≤ c.max_bandwidth :=
  applyBandwidthChange_bounds c (makeControlDecision states) B
    (makeControlDecision_rp_nonneg states) hmin0 hminmax hlo hhi

/-- Witness for `c1_bounds_preserved`: one throttle tick from `B = 500`
under bounds `[10, 1000]`. -/
theorem c1_bounds_preserved_witness :
    c7Control.min_bandwidth ≤
      applyBandwidthChange c7Control (makeControlDecision [violRobotState]) 500 ∧
    applyBandwidthChange c7Control (makeControlDecision [violRobotState]) 500 ≤
      c7Control.max_bandwidth :=
  c1_bounds_preserved c7Control [violRobotState] 500
    (by decide) (by decide) (by decide) (by decide)

/-- Claim C2 as stated is false for the RELEASE branch: with a configured
`step_up = 20`, the code still raises the bandwidth by its hardcoded
`10` Mbps (line 322 of `flow_manager.py`), so at `B = 500` under bounds
`[10, 1000]` the result is `510`, not the claimed
`min(max_bandwidth, B + step_up) = 520`. -/
theorem c2_release_counterexample :
    applyBandwidthChange stepUpControl (makeControlDecision [stableRobotState]) 500 ≠
      min stepUpControl.max_bandwidth (500 + stepUpControl.step_up) := by
  norm_num +decide [applyBandwidthChange, makeControlDecision, worstViolation,
    worstStep, isUdpViolator, violationFlag, isUdpProtocol, stepUpControl,
    stableRobotState, robotApp]

/-- Claim C2, amended: for every current bandwidth `B` in
`[min_bandwidth, max_bandwidth]` (with `B ≥ 0`), a THROTTLE decision yields
`B' = max(min_bandwidth, B - ⌊B * 0.20⌋)`, a RELEASE decision yields
`B' = min(max_bandwidth, B + 10)` with a hardcoded step of 10 Mbps (the
configured `step_up` is ignored), and a MAINTAIN decision leaves `B`
unchanged. -/
theorem c2_aimd_update (c : ControlConfig) (states : List AppState) (B : ℤ)
    (h0 : 0 ≤ B) (_hlo : c.min_bandwidth ≤ B) (_hhi : B ≤ c.max_bandwidth) :
    ((makeControlDecision states).action = ControlAction.throttle →
      applyBandwidthChange c (makeControlDecision states) B =
        max c.min_bandwidth (B - ⌊(B : ℚ) * (20 / 100)⌋)) ∧
    ((makeControlDecision states).action = ControlAction.release →
      applyBandwidthChange c (makeControlDecision states) B =
        min c.max_bandwidth (B + 10)) ∧
    ((makeControlDecision states).action = ControlAction.maintain →
      applyBandwidthChange c (makeControlDecision states) B = B) := by
  have hfloor : pyTrunc ((B : ℚ) * (20 / 100)) = ⌊(B : ℚ) * (20 / 100)⌋ :=
    pyTrunc_eq_floor _ (mul_nonneg (by exact_mod_cast h0) (by norm_num))
  rcases makeControlDecision_shape states with ⟨w, h⟩ | h | h
  · refine ⟨fun _ => ?_, fun ha => ?_, fun ha => ?_⟩
    · rw [h]
      simp only [applyBandwidthChange, hfloor]
    · rw [h] at ha
      simp at ha
    · rw [h] at ha
      simp at ha
  · refine ⟨fun ha => ?_, fun _ => ?_, fun ha => ?_⟩
    · rw [h] at ha
      simp at ha
    · rw [h]
      simp only [applyBandwidthChange]
    · rw [h] at ha
      simp at ha
  · refine ⟨fun ha => ?_, fun ha => ?_, fun _ => ?_⟩
    · rw [h] at ha
      simp at ha
    · rw [h] at ha
      simp at ha
    · rw [h]
      simp only [applyBandwidthChange]

/-- Witness for `c2_aimd_update`: a release tick at `B = 500` under the
`step_up = 20` configuration still adds exactly 10. -/
theorem c2_aimd_update_witness :
    applyBandwidthChange stepUpControl (makeControlDecision [stableRobotState]) 500 =
      min stepUpControl.max_bandwidth (500 + 10) :=
  (c2_aimd_update stepUpControl [stableRobotState] 500
      (by decide) (by decide) (by decide)).2.1
    (by norm_num +decide [makeControlDecision, worstViolation, worstStep,
      isUdpViolator, violationFlag, isUdpProtocol, stableRobotState, robotApp])

/-- Claim C7 as stated is false at its fifth step: from the agreed fourth
value `256`, the code computes `256 - int(256 * 0.20) = 256 - 51 = 205`, not
the claimed `204`. -/
theorem c7_sequence_counterexample :
    applyBandwidthChange c7Control (makeControlDecision [violRobotState]) 256 ≠ 204 := by
  norm_num +decide [applyBandwidthChange, makeControlDecision, worstViolation,
    worstStep, isUdpViolator, violationFlag, isUdpProtocol, pyTrunc, c7Control,
    violRobotState, robotApp]

/-- Claim C7, amended: starting from `B = 500` with `min_bandwidth = 10`,
five successive THROTTLE ticks with decrease fraction `0.20` produce the
bandwidth sequence `500 → 400 → 320 → 256 → 205 → 164` (the source's
`B - int(B * 0.20)` rounds the retained bandwidth up, not down). -/
theorem c7_throttle_sequence :
    applyBandwidthChange c7Control (makeControlDecision [violRobotState]) 500 = 400 ∧
    applyBandwidthChange c7Control (makeControlDecision [violRobotState]) 400 = 320 ∧
    applyBandwidthChange c7Control (makeControlDecision [violRobotState]) 320 = 256 ∧
    applyBandwidthChange c7Control (makeControlDecision [violRobotState]) 256 = 205 ∧
    applyBandwidthChange c7Control (makeControlDecision [violRobotState]) 205 = 164 := by
  refine ⟨?_, ?_, ?_, ?_, ?_⟩ <;>
    norm_num +decide [applyBandwidthChange, makeControlDecision, worstViolation,
      worstStep, isUdpViolator, violationFlag, isUdpProtocol, pyTrunc, c7Control,
      violRobotState, robotApp]

/-! ## C3, C4 — decision aggregation -/

theorem isUdpViolator_iff (s : AppState) :
    isUdpViolator s = true ↔
      isUdpProtocol s.app.protocol = true ∧ s.app.max_jitter_ms < s.jitter := by
  simp [isUdpViolator, violationFlag, Bool.and_eq_true, and_comm]

theorem worstStep_of_not_violator (w : Option AppState) (s : AppState)
    (h : isUdpViolator s = false) : worstStep w s = w := by
  simp [worstStep, h]

theorem worstStep_spec (w0 : Option AppState) (a : AppState)
    (hv : isUdpViolator a = true) :
    ∃ u, worstStep w0 a = some u ∧ (u = a ∨ w0 = some u) ∧
      a.app.priority ≤ u.app.priority ∧
      ∀ v, w0 = some v → v.app.priority ≤ u.app.priority := by
  cases w0 with
  | none => exact ⟨a, by simp [worstStep, hv], Or.inl rfl, le_refl _, by simp⟩
  | some v =>
    by_cases hp : v.app.priority < a.app.priority
    · refine ⟨a, by simp [worstStep, hv, hp], Or.inl rfl, le_refl _, ?_⟩
      intro v2 h2
      cases h2
      exact le_of_lt hp
    · refine ⟨v, by simp [worstStep, hv, hp], Or.inr rfl, le_of_not_lt hp, ?_⟩
      intro v2 h2
      cases h2
      exact le_refl _

theorem worstFold_eq_none_iff (l : List AppState) :
    ∀ w0 : Option AppState,
      l.foldl worstStep w0 = none ↔
        w0 = none ∧ ∀ s ∈ l, isUdpViolator s = false := by
  induction l with
  | nil => intro w0; simp
  | cons a l ih =>
    intro w0
    rw [List.foldl_cons, ih (worstStep w0 a)]
    constructor
    · rintro ⟨h1, h2⟩
      by_cases hv : isUdpViolator a = true
      · obtain ⟨u, hu, -, -, -⟩ := worstStep_spec w0 a hv
        rw [hu] at h1
        exact Option.noConfusion h1
      · have hvf : isUdpViolator a = false := by simpa using hv
        rw [worstStep_of_not_violator w0 a hvf] at h1
        refine ⟨h1, fun s hs => ?_⟩
        rcases List.mem_cons.mp hs with heq | hs2
        · rw [heq]
          exact hvf
        · exact h2 s hs2
    · rintro ⟨h1, h2⟩
      have hvf : isUdpViolator a = false := h2 a (List.mem_cons_self a l)
      rw [worstStep_of_not_violator w0 a hvf]
      exact ⟨h1, fun s hs => h2 s (List.mem_cons_of_mem a hs)⟩

theorem worstFold_some (l : List AppState) :
    ∀ (w0 : Option AppState) (w : AppState), l.foldl worstStep w0 = some w →
      (w0 = some w ∨ (w ∈ l ∧ isUdpViolator w = true)) ∧
      (∀ s ∈ l, isUdpViolator s = true → s.app.priority ≤ w.app.priority) ∧
      (∀ v, w0 = some v → v.app.priority ≤ w.app.priority) := by
  induction l with
  | nil =>
    intro w0 w h
    simp at h
    subst h
    refine ⟨Or.inl rfl, by simp, fun v hv => ?_⟩
    rw [Option.some_inj.mp hv]
  | cons a l ih =>
    intro w0 w h
    rw [List.foldl_cons] at h
    obtain ⟨h1, h2, h3⟩ := ih (worstStep w0 a) w h
    by_cases hv : isUdpViolator a = true
    · obtain ⟨u, hu, hu1, hu2, hu3⟩ := worstStep_spec w0 a hv
      rw [hu] at h1 h3
      have huw : u.app.priority ≤ w.app.priority := h3 u rfl
      refine ⟨?_, ?_, ?_⟩
      · rcases h1 with h1 | h1
        · have huw2 : u = w := Option.some_inj.mp h1
          rcases hu1 with heq | hw0
          · exact Or.inr ⟨by rw [← huw2, heq]; exact List.mem_cons_self a l,
              by rw [← huw2, heq]; exact hv⟩
          · exact Or.inl (by rw [hw0, huw2])
        · exact Or.inr ⟨List.mem_cons_of_mem a h1.1, h1.2⟩
      · intro s hs hsv
        rcases List.mem_cons.mp hs with heq | hs2
        · subst heq
          exact le_trans hu2 huw
        · exact h2 s hs2 hsv
      · intro v hv0
        exact le_trans (hu3 v hv0) huw
    · have hvf : isUdpViolator a = false := by simpa using hv
      rw [worstStep_of_not_violator w0 a hvf] at h1 h3
      refine ⟨?_, ?_, h3⟩
      · rcases h1 with h1 | h1
        · exact Or.inl h1
        · exact Or.inr ⟨List.mem_cons_of_mem a h1.1, h1.2⟩
      · intro s hs hsv
        rcases List.mem_cons.mp hs with heq | hs2
        · subst heq
          rw [hsv] at hvf
          cases hvf
        · exact h2 s hs2 hsv

theorem worstFold_filter_udp (l : List AppState) :
    ∀ w0 : Option AppState,
      l.foldl worstStep w0 =
        (l.filter (fun s => isUdpProtocol s.app.protocol)).foldl worstStep w0 := by
  induction l with
  | nil => intro w0; rfl
  | cons a l ih =>
    intro w0
    by_cases hp : isUdpProtocol a.app.protocol = true
    · rw [List.foldl_cons,
        List.filter_cons_of_pos (p := fun s : AppState => isUdpProtocol s.app.protocol) hp,
        List.foldl_cons, ih]
    · have hpf : isUdpProtocol a.app.protocol = false := by simpa using hp
      have hvf : isUdpViolator a = false := by simp [isUdpViolator, hpf]
      rw [List.foldl_cons, worstStep_of_not_violator w0 a hvf,
        List.filter_cons_of_neg (by simp [hpf]), ih]

theorem filter_udp_idem (l : List AppState) :
    (l.filter (fun s => isUdpProtocol s.app.protocol)).filter
        (fun s => isUdpProtocol s.app.protocol) =
      l.filter (fun s => isUdpProtocol s.app.protocol) :=
  List.filter_eq_self.mpr fun _ ha => (List.mem_filter.mp ha).2

theorem allStable_eq_true_iff (states : List AppState) :
    (!(states.filter (fun s => isUdpProtocol s.app.protocol)).isEmpty &&
      (states.filter (fun s => isUdpProtocol s.app.protocol)).all
        (fun s => s.jitter < s.app.max_jitter_ms * (1 / 2))) = true ↔
    (∃ s ∈ states, isUdpProtocol s.app.protocol = true) ∧
      ∀ s ∈ states, isUdpProtocol s.app.protocol = true →
        s.jitter < s.app.max_jitter_ms * (1 / 2) := by
  rw [Bool.and_eq_true, Bool.not_eq_true', List.isEmpty_eq_false, List.all_eq_true]
  constructor
  · rintro ⟨hne, hall⟩
    obtain ⟨s0, hs0⟩ := List.exists_mem_of_ne_nil _ hne
    obtain ⟨hs0m, hs0u⟩ := List.mem_filter.mp hs0
    refine ⟨⟨s0, hs0m, hs0u⟩, fun s hs hu => ?_⟩
    have := hall s (List.mem_filter.mpr ⟨hs, hu⟩)
    exact of_decide_eq_true this
  · rintro ⟨⟨s0, hs0m, hs0u⟩, hall⟩
    constructor
    · intro hnil
      rw [List.eq_nil_iff_forall_not_mem] at hnil
      exact hnil s0 (List.mem_filter.mpr ⟨hs0m, hs0u⟩)
    · intro s hs
      obtain ⟨hsm, hsu⟩ := List.mem_filter.mp hs
      exact decide_eq_true (hall s hsm hsu)

/-- Claim C3: per-tick aggregation over the measurement states.  THROTTLE
exactly when some UDP-protocol state violates its jitter SLA, and the
decision's reason then names a UDP violator of maximal priority; otherwise
RELEASE when at least one UDP-protocol state is present and all of them are
stable (`jitter < max_jitter_ms / 2`); otherwise MAINTAIN.  TCP-protocol
states never influence the decision: the decision computed from the full
state list equals the one computed from its UDP-only sublist. -/
theorem c3_decision_rule (states : List AppState) :
    ((∃ s ∈ states, isUdpProtocol s.app.protocol = true ∧
        s.app.max_jitter_ms < s.jitter) →
      ∃ w ∈ states, isUdpProtocol w.app.protocol = true ∧
        w.app.max_jitter_ms < w.jitter ∧
        (∀ s ∈ states, isUdpProtocol s.app.protocol = true →
          s.app.max_jitter_ms < s.jitter → s.app.priority ≤ w.app.priority) ∧
        makeControlDecision states = ⟨ControlAction.throttle, some w, 20 / 100⟩) ∧
    ((∀ s ∈ states, isUdpProtocol s.app.protocol = true →
        s.jitter ≤ s.app.max_jitter_ms) →
      (((∃ s ∈ states, isUdpProtocol s.app.protocol = true) ∧
        ∀ s ∈ states, isUdpProtocol s.app.protocol = true →
          s.jitter < s.app.max_jitter_ms * (1 / 2)) →
        makeControlDecision states = ⟨ControlAction.release, none, 0⟩) ∧
      (¬((∃ s ∈ states, isUdpProtocol s.app.protocol = true) ∧
        ∀ s ∈ states, isUdpProtocol s.app.protocol = true →
          s.jitter < s.app.max_jitter_ms * (1 / 2)) →
        makeControlDecision states = ⟨ControlAction.maintain, none, 0⟩)) ∧
    makeControlDecision states =
      makeControlDecision (states.filter (fun s => isUdpProtocol s.app.protocol)) := by
  refine ⟨?_, ?_, ?_⟩
  · rintro ⟨s0, hs0, hs0u, hs0v⟩
    have hs0viol : isUdpViolator s0 = true := (isUdpViolator_iff s0).mpr ⟨hs0u, hs0v⟩
    cases hw : worstViolation states with
    | none =>
      obtain ⟨-, hall⟩ := (worstFold_eq_none_iff states none).mp hw
      rw [hall s0 hs0] at hs0viol
      cases hs0viol
    | some w =>
      obtain ⟨h1, h2, -⟩ := worstFold_some states none w hw
      rcases h1 with h1 | ⟨hwm, hwv⟩
      · cases h1
      · obtain ⟨hwu, hwviol⟩ := (isUdpViolator_iff w).mp hwv
        exact ⟨w, hwm, hwu, hwviol,
          fun s hs hsu hsv => h2 s hs ((isUdpViolator_iff s).mpr ⟨hsu, hsv⟩),
          makeControlDecision_of_violator states w hw⟩
  · intro hnv
    have hall : ∀ s ∈ states, isUdpViolator s = false := by
      intro s hs
      cases hsv : isUdpViolator s with
      | false => rfl
      | true =>
        obtain ⟨hsu, hsviol⟩ := (isUdpViolator_iff s).mp hsv
        exact absurd (hnv s hs hsu) (not_le.mpr hsviol)
    have hw : worstViolation states = none :=
      (worstFold_eq_none_iff states none).mpr ⟨rfl, hall⟩
    rw [makeControlDecision_of_no_violator states hw]
    constructor
    · intro hstab
      rw [if_pos ((allStable_eq_true_iff states).mpr hstab)]
    · intro hnstab
      rw [if_neg (fun hc => hnstab ((allStable_eq_true_iff states).mp hc))]
  · cases hw : worstViolation states with
    | some w =>
      have hwf : worstViolation
          (states.filter (fun s => isUdpProtocol s.app.protocol)) = some w := by
        rw [worstViolation, ← worstFold_filter_udp states none, ← worstViolation, hw]
      rw [makeControlDecision_of_violator states w hw,
        makeControlDecision_of_violator _ w hwf]
    | none =>
      have hwf : worstViolation
          (states.filter (fun s => isUdpProtocol s.app.protocol)) = none := by
        rw [worstViolation, ← worstFold_filter_udp states none, ← worstViolation, hw]
      rw [makeControlDecision_of_no_violator states hw,
        makeControlDecision_of_no_violator _ hwf, filter_udp_idem]

/-- Witness for `c3_decision_rule`: with one violating UDP state and one
violating TCP state, the decision throttles with the UDP violator as the
reason. -/
theorem c3_decision_rule_witness :
    makeControlDecision [violRobotState, violScannerState] =
      ⟨ControlAction.throttle, some violRobotState, 20 / 100⟩ := by
  obtain ⟨w, hwm, hwu, -, -, heq⟩ :=
    (c3_decision_rule [violRobotState, violScannerState]).1
      ⟨violRobotState, by simp, by decide, by norm_num [violRobotState, robotApp]⟩
  have hw : w = violRobotState := by
    rcases List.mem_cons.mp hwm with h | h
    · exact h
    · exfalso
      rcases List.mem_cons.mp h with h2 | h2
      · rw [h2] at hwu
        exact absurd hwu (by decide)
      · simp at h2
  rw [hw] at heq
  exact heq

/-- Claim C4 as stated is false: a tick on which the sole UDP app has only
one sample in its window produces jitter `0`, which counts as *stable*
(`0 < max_jitter_ms / 2`), so the decision is RELEASE, not MAINTAIN. -/
theorem c4_counterexample :
    (makeControlDecision [measuredState 30 robotApp [] 1]).action ≠
      ControlAction.maintain := by
  norm_num +decide [measuredState, fetchAndCalculateJitter, appendSample,
    makeControlDecision, worstViolation, worstStep, isUdpViolator, violationFlag,
    isUdpProtocol, robotApp]

/-- Claim C4, amended: on a tick where every measured app is UDP-protocol
with a positive jitter SLA and every window holds fewer than 5 samples after
this tick's append, the computed jitter is 0 for every app and the decision
is RELEASE (zero jitter counts as stable), not MAINTAIN.  (MAINTAIN-like
behaviour occurs only when no app at all has a measurement: the source then
skips the cycle without producing any decision.) -/
theorem c4_insufficient_samples (windowSize : ℕ)
    (inputs : List (CriticalAppConfig × List ℚ × ℚ)) (hne : inputs ≠ [])
    (h : ∀ i ∈ inputs, isUdpProtocol i.1.protocol = true ∧
      0 < i.1.max_jitter_ms ∧ (appendSample windowSize i.2.1 i.2.2).length < 5) :
    makeControlDecision
        (inputs.map (fun i => measuredState windowSize i.1 i.2.1 i.2.2)) =
      ⟨ControlAction.release, none, 0⟩ := by
  have hjit : ∀ i ∈ inputs, (measuredState windowSize i.1 i.2.1 i.2.2).jitter = 0 := by
    intro i hi
    obtain ⟨-, -, hlen⟩ := h i hi
    simp only [measuredState, fetchAndCalculateJitter]
    rw [if_neg (by omega)]
  have hall : ∀ s ∈ inputs.map (fun i => measuredState windowSize i.1 i.2.1 i.2.2),
      isUdpViolator s = false := by
    intro s hs
    obtain ⟨i, hi, rfl⟩ := List.mem_map.mp hs
    have h0 : ¬ ((measuredState windowSize i.1 i.2.1 i.2.2).app.max_jitter_ms <
        (measuredState windowSize i.1 i.2.1 i.2.2).jitter) := by
      rw [hjit i hi,
        show (measuredState windowSize i.1 i.2.1 i.2.2).app = i.1 from rfl]
      exact not_lt.mpr (le_of_lt (h i hi).2.1)
    simp [isUdpViolator, violationFlag, h0]
  have hw : worstViolation
      (inputs.map (fun i => measuredState windowSize i.1 i.2.1 i.2.2)) = none :=
    (worstFold_eq_none_iff _ none).mpr ⟨rfl, hall⟩
  have hcond : (∃ s ∈ inputs.map (fun i => measuredState windowSize i.1 i.2.1 i.2.2),
      isUdpProtocol s.app.protocol = true) ∧
      ∀ s ∈ inputs.map (fun i => measuredState windowSize i.1 i.2.1 i.2.2),
        isUdpProtocol s.app.protocol = true →
          s.jitter < s.app.max_jitter_ms * (1 / 2) := by
    constructor
    · obtain ⟨i0, hi0⟩ := List.exists_mem_of_ne_nil inputs hne
      exact ⟨measuredState windowSize i0.1 i0.2.1 i0.2.2,
        List.mem_map_of_mem _ hi0, (h i0 hi0).1⟩
    · intro s hs _
      obtain ⟨i, hi, rfl⟩ := List.mem_map.mp hs
      rw [hjit i hi,
        show (measuredState windowSize i.1 i.2.1 i.2.2).app = i.1 from rfl]
      exact mul_pos (h i hi).2.1 (by norm_num)
  rw [makeControlDecision_of_no_violator _ hw,
    if_pos ((allStable_eq_true_iff _).mpr hcond)]

/-- Witness for `c4_insufficient_samples`: one UDP app, empty pre-tick
window, first sample appended. -/
theorem c4_insufficient_samples_witness :
    makeControlDecision [measuredState 30 robotApp [] 1] =
      ⟨ControlAction.release, none, 0⟩ :=
  c4_insufficient_samples 30 [(robotApp, [], 1)] (by simp) (by decide)

/-! ## C5 — IQR jitter statistic -/

/-- Claim C5: for a rolling window of `n ≥ 5` samples the jitter equals
`max(0, Q3 - Q1)` rounded to three fractional digits, where the window is
sorted ascending, `Q1` is the element at index `⌊n/4⌋` and `Q3` the element
at index `⌊3n/4⌋` (the `max` is redundant because the sorted order forces
`Q1 ≤ Q3`, so the code's plain `Q3 - Q1` agrees with it); for a window of
fewer than 5 samples the jitter is 0. -/
theorem c5_jitter_iqr (w : List ℚ) :
    (5 ≤ w.length →
      calculateJitterIqr w =
        round3 (max 0 ((w.insertionSort (· ≤ ·)).getD (3 * w.length / 4) 0 -
          (w.insertionSort (· ≤ ·)).getD (w.length / 4) 0))) ∧
    (w.length < 5 → calculateJitterIqr w = 0) := by
  constructor
  · intro h5
    have hlen : (w.insertionSort (· ≤ ·)).length = w.length :=
      List.length_insertionSort _ w
    have hq1 : w.length / 4 < (w.insertionSort (· ≤ ·)).length := by omega
    have hq3 : 3 * w.length / 4 < (w.insertionSort (· ≤ ·)).length := by omega
    have hle : (w.insertionSort (· ≤ ·)).get ⟨w.length / 4, hq1⟩ ≤
        (w.insertionSort (· ≤ ·)).get ⟨3 * w.length / 4, hq3⟩ :=
      (List.sorted_insertionSort _ w).rel_get_of_le (by
        simp only [Fin.mk_le_mk]
        omega)
    rw [calculateJitterIqr, if_neg (by omega)]
    simp only [hlen, List.getD_eq_get _ _ hq1, List.getD_eq_get _ _ hq3]
    rw [max_eq_right (sub_nonneg.mpr hle)]
  · intro h5
    rw [calculateJitterIqr, if_pos h5]

/-- Witness for `c5_jitter_iqr` on the 5-sample window `[1, 2, 3, 4, 10]`. -/
theorem c5_jitter_iqr_witness :
    calculateJitterIqr [1, 2, 3, 4, 10] =
      round3 (max 0
        ((([1, 2, 3, 4, 10] : List ℚ).insertionSort (· ≤ ·)).getD
            (3 * ([1, 2, 3, 4, 10] : List ℚ).length / 4) 0 -
          (([1, 2, 3, 4, 10] : List ℚ).insertionSort (· ≤ ·)).getD
            (([1, 2, 3, 4, 10] : List ℚ).length / 4) 0)) :=
  (c5_jitter_iqr [1, 2, 3, 4, 10]).1 (by decide)

/-! ## C6 — configuration validation -/

/-- Claim C6 as stated is false: a configuration with `window_size = 3`
(below the claimed `window_size ≥ 5` rule) passes `ConfigLoader.validate`,
because the source checks neither `window_size` nor the intervals. -/
theorem c6_validate_counterexample :
    validate badWindowConfig = true ∧ badWindowConfig.control.window_size < 5 := by
  constructor
  · decide
  · decide

/-- Claim C6, amended: validation fails if and only if `critical_apps` is
empty, or `best_effort_targets` is empty, or `min_bandwidth ≥ max_bandwidth`,
or some critical app's protocol is outside `{TCP, UDP}`.  `window_size` and
the two intervals are not validated. -/
theorem c6_validate_iff (cfg : SystemConfig) :
    validate cfg = false ↔
      cfg.critical_apps = [] ∨ cfg.best_effort_targets = [] ∨
      cfg.control.max_bandwidth ≤ cfg.control.min_bandwidth ∨
      ∃ a ∈ cfg.critical_apps, a.protocol ≠ "TCP" ∧ a.protocol ≠ "UDP" := by
  unfold validate
  split_ifs with h1 h2 h3 h4
  · simp only [List.isEmpty_iff] at h1
    simp [h1]
  · simp only [List.isEmpty_iff] at h2
    simp [h2]
  · simp only [ge_iff_le] at h3
    simp [h3]
  · obtain ⟨a, ha, hp⟩ := List.any_eq_true.mp h4
    simp only [Bool.not_eq_true', Bool.or_eq_false_iff, beq_eq_false_iff_ne] at hp
    exact iff_of_true rfl (Or.inr (Or.inr (Or.inr ⟨a, ha, hp.1, hp.2⟩)))
  · refine iff_of_false (by simp) ?_
    rintro (hc | hc | hc | ⟨a, ha, hT, hU⟩)
    · exact h1 (by simp [hc])
    · exact h2 (by simp [hc])
    · exact h3 hc
    · exact h4 (List.any_eq_true.mpr ⟨a, ha, by
        simp [Bool.not_eq_true', Bool.or_eq_false_iff, beq_eq_false_iff_ne, hT, hU]⟩)

/-! ## C8 — egress-bandwidth annotation parsing -/

theorem replaceChar_append (p : Char) (r l1 l2 : List Char) :
    replaceChar p r (l1 ++ l2) = replaceChar p r l1 ++ replaceChar p r l2 := by
  induction l1 with
  | nil => rfl
  | cons c cs ih => simp [replaceChar, ih, List.append_assoc]

theorem replaceChar_of_not_mem (p : Char) (r : List Char) (l : List Char)
    (h : ∀ c ∈ l, c ≠ p) : replaceChar p r l = l := by
  induction l with
  | nil => rfl
  | cons c cs ih =>
    simp only [replaceChar, if_neg (h c (List.mem_cons_self c cs)),
      ih fun x hx => h x (List.mem_cons_of_mem c hx)]
    rfl

theorem digit_ne_of_isDigit (c d : Char) (h : c.isDigit = true)
    (hd : d.isDigit = false) : c ≠ d := by
  rintro rfl
  rw [h] at hd
  exact Bool.noConfusion hd

theorem replaceChar_digits_append (p : Char) (r : List Char)
    (hp : p.isDigit = false) (d : List Char) (hd : ∀ c ∈ d, c.isDigit = true)
    (t : List Char) :
    replaceChar p r (d ++ t) = d ++ replaceChar p r t := by
  rw [replaceChar_append,
    replaceChar_of_not_mem p r d fun c hc => digit_ne_of_isDigit c p (hd c hc) hp]

theorem digitsVal_append3 (d : List Char) :
    digitsVal (d ++ ['0', '0', '0']) = 1000 * digitsVal d := by
  have h0 : '0'.toNat - 48 = 0 := by decide
  simp [digitsVal, List.foldl_append, h0]
  ring

theorem pyIntOfChars_digit_head (c : Char) (rest : List Char)
    (hc : c.isDigit = true) :
    pyIntOfChars (c :: rest) =
      if (c :: rest).all Char.isDigit then some ((digitsVal (c :: rest) : ℤ))
      else none := by
  simp only [pyIntOfChars,
    if_neg (digit_ne_of_isDigit c '-' hc (by decide)),
    if_neg (digit_ne_of_isDigit c '+' hc (by decide))]

theorem pyIntOfChars_of_digits (l : List Char) (hne : l ≠ [])
    (hd : ∀ c ∈ l, c.isDigit = true) :
    pyIntOfChars l = some ((digitsVal l : ℤ)) := by
  obtain ⟨c, rest, rfl⟩ := List.exists_cons_of_ne_nil hne
  rw [pyIntOfChars_digit_head c rest (hd c (List.mem_cons_self c rest)),
    if_pos (List.all_eq_true.mpr hd)]

theorem pyIntOfChars_digits_append_nondigit (d : List Char) (hne : d ≠ [])
    (hd : ∀ c ∈ d, c.isDigit = true) (x : Char) (hx : x.isDigit = false) :
    pyIntOfChars (d ++ [x]) = none := by
  obtain ⟨c, rest, rfl⟩ := List.exists_cons_of_ne_nil hne
  rw [List.cons_append,
    pyIntOfChars_digit_head c (rest ++ [x]) (hd c (List.mem_cons_self c rest)),
    if_neg]
  intro hall
  have hxd := List.all_eq_true.mp hall x (by simp)
  rw [hx] at hxd
  exact Bool.noConfusion hxd

theorem replace_chain_digits (d : List Char) (hd : ∀ c ∈ d, c.isDigit = true)
    (x : Char) :
    replaceChar 'g' ['0', '0', '0']
        (replaceChar 'G' ['0', '0', '0']
          (replaceChar 'm' [] (replaceChar 'M' [] (d ++ [x])))) =
      d ++ replaceChar 'g' ['0', '0', '0']
        (replaceChar 'G' ['0', '0', '0']
          (replaceChar 'm' [] (replaceChar 'M' [] [x]))) := by
  rw [replaceChar_digits_append 'M' [] (by decide) d hd,
    replaceChar_digits_append 'm' [] (by decide) d hd,
    replaceChar_digits_append 'G' ['0', '0', '0'] (by decide) d hd,
    replaceChar_digits_append 'g' ['0', '0', '0'] (by decide) d hd]

/-- Claim C8 as stated is false for the `K`/`k` suffixes: the parsing
expression strips or rewrites only `M`, `m`, `G`, `g`, so `"10K"` reaches
`int()` unconverted and raises `ValueError` (modelled as `none`) instead of
returning `10`. -/
theorem c8_parse_counterexample : parseBandwidth "10K" ≠ some 10 := by
  decide

/-- Claim C8, amended: for an annotation consisting of a non-empty run of
digits followed by one suffix letter, suffixes `M`/`m` return the leading
integer, suffixes `G`/`g` return it multiplied by 1000, and suffixes
`K`/`k` fail to parse (the read falls back to `None`). -/
theorem c8_parse_suffixes (d : List Char) (hne : d ≠ [])
    (hd : ∀ c ∈ d, c.isDigit = true) :
    parseBandwidth (String.mk (d ++ ['M'])) = some ((digitsVal d : ℤ)) ∧
    parseBandwidth (String.mk (d ++ ['m'])) = some ((digitsVal d : ℤ)) ∧
    parseBandwidth (String.mk (d ++ ['G'])) =
      some (1000 * (digitsVal d : ℤ)) ∧
    parseBandwidth (String.mk (d ++ ['g'])) =
      some (1000 * (digitsVal d : ℤ)) ∧
    parseBandwidth (String.mk (d ++ ['K'])) = none ∧
    parseBandwidth (String.mk (d ++ ['k'])) = none := by
  have hd000 : ∀ c ∈ d ++ ['0', '0', '0'], c.isDigit = true := by
    intro c hc
    rcases List.mem_append.mp hc with h | h
    · exact hd c h
    · simp only [List.mem_cons, List.not_mem_nil, or_false] at h
      rcases h with rfl | rfl | rfl <;> decide
  have hd000ne : d ++ ['0', '0', '0'] ≠ [] := by simp
  refine ⟨?_, ?_, ?_, ?_, ?_, ?_⟩
  · show pyIntOfChars _ = _
    rw [replace_chain_digits d hd 'M',
      show replaceChar 'g' ['0', '0', '0'] (replaceChar 'G' ['0', '0', '0']
        (replaceChar 'm' [] (replaceChar 'M' [] ['M']))) = ([] : List Char) from rfl,
      List.append_nil, pyIntOfChars_of_digits d hne hd]
  · show pyIntOfChars _ = _
    rw [replace_chain_digits d hd 'm',
      show replaceChar 'g' ['0', '0', '0'] (replaceChar 'G' ['0', '0', '0']
        (replaceChar 'm' [] (replaceChar 'M' [] ['m']))) = ([] : List Char) from rfl,
      List.append_nil, pyIntOfChars_of_digits d hne hd]
  · show pyIntOfChars _ = _
    rw [replace_chain_digits d hd 'G',
      show replaceChar 'g' ['0', '0', '0'] (replaceChar 'G' ['0', '0', '0']
        (replaceChar 'm' [] (replaceChar 'M' [] ['G']))) = ['0', '0', '0'] from rfl,
      pyIntOfChars_of_digits _ hd000ne hd000, digitsVal_append3]
    push_cast
    ring_nf
  · show pyIntOfChars _ = _
    rw [replace_chain_digits d hd 'g',
      show replaceChar 'g' ['0', '0', '0'] (replaceChar 'G' ['0', '0', '0']
        (replaceChar 'm' [] (replaceChar 'M' [] ['g']))) = ['0', '0', '0'] from rfl,
      pyIntOfChars_of_digits _ hd000ne hd000, digitsVal_append3]
    push_cast
    ring_nf
  · show pyIntOfChars _ = _
    rw [replace_chain_digits d hd 'K',
      show replaceChar 'g' ['0', '0', '0'] (replaceChar 'G' ['0', '0', '0']
        (replaceChar 'm' [] (replaceChar 'M' [] ['K']))) = ['K'] from rfl,
      pyIntOfChars_digits_append_nondigit d hne hd 'K' (by decide)]
  · show pyIntOfChars _ = _
    rw [replace_chain_digits d hd 'k',
      show replaceChar 'g' ['0', '0', '0'] (replaceChar 'G' ['0', '0', '0']
        (replaceChar 'm' [] (replaceChar 'M' [] ['k']))) = ['k'] from rfl,
      pyIntOfChars_digits_append_nondigit d hne hd 'k' (by decide)]

/-- Witness for `c8_parse_suffixes` on the digit run `"5"`. -/
theorem c8_parse_suffixes_witness :
    parseBandwidth (String.mk (['5'] ++ ['M'])) =
        some ((digitsVal ['5'] : ℤ)) ∧
    parseBandwidth (String.mk (['5'] ++ ['m'])) =
        some ((digitsVal ['5'] : ℤ)) ∧
    parseBandwidth (String.mk (['5'] ++ ['G'])) =
        some (1000 * (digitsVal ['5'] : ℤ)) ∧
    parseBandwidth (String.mk (['5'] ++ ['g'])) =
        some (1000 * (digitsVal ['5'] : ℤ)) ∧
    parseBandwidth (String.mk (['5'] ++ ['K'])) = none ∧
    parseBandwidth (String.mk (['5'] ++ ['k'])) = none :=
  c8_parse_suffixes ['5'] (by decide) (by decide)
